import Mathlib

/-!
Shallow embedding of the `SimpleGameEngine` 2D physics/collision engine
(axis-aligned rectangles, per-tick integration, pairwise collision
resolution, synchronous event bus).  Numeric values are modelled as `ℚ`;
DOM/presentation writes (`element.style.*`) are presentation-layer effects
outside the engine state and are not part of the embedding.
-/

namespace SGE

/-- An axis-aligned rectangle, the geometric part of a game object
(fields `x, y, width, height` of the source objects). -/
structure Rect where
  x : ℚ
  y : ℚ
  width : ℚ
  height : ℚ
deriving DecidableEq, Repr

/-- `isColliding(obj1, obj2)`: AABB intersection with strict inequalities
on all four sides. -/
def isColliding (obj1 obj2 : Rect) : Bool :=
  decide (obj1.x < obj2.x + obj2.width) &&
  decide (obj1.x + obj1.width > obj2.x) &&
  decide (obj1.y < obj2.y + obj2.height) &&
  decide (obj1.y + obj1.height > obj2.y)

/-- Horizontal penetration depth, as computed in `getCollisionData`:
`Math.min(obj1.x + obj1.width - obj2.x, obj2.x + obj2.width - obj1.x)`. -/
def overlapX (obj1 obj2 : Rect) : ℚ :=
  min (obj1.x + obj1.width - obj2.x) (obj2.x + obj2.width - obj1.x)

/-- Vertical penetration depth, as computed in `getCollisionData`:
`Math.min(obj1.y + obj1.height - obj2.y, obj2.y + obj2.height - obj1.y)`. -/
def overlapY (obj1 obj2 : Rect) : ℚ :=
  min (obj1.y + obj1.height - obj2.y) (obj2.y + obj2.height - obj1.y)

/-- The four direction strings used by `getCollisionData`/`resolveCollision`. -/
inductive Direction where
  | left
  | right
  | top
  | bottom
deriving DecidableEq, Repr

/-- The record `{overlapX, overlapY, direction}` returned by `getCollisionData`. -/
structure CollisionData where
  overlapX : ℚ
  overlapY : ℚ
  direction : Direction
deriving DecidableEq, Repr

/-- `getCollisionData(obj1, obj2)`: penetration depths along both axes plus
the separation direction (`overlapX < overlapY` picks the horizontal axis,
otherwise — ties included — the vertical one). -/
def getCollisionData (obj1 obj2 : Rect) : CollisionData :=
  let oX := overlapX obj1 obj2
  let oY := overlapY obj1 obj2
  let direction : Direction :=
    if oX < oY then
      if obj1.x < obj2.x then .left else .right
    else
      if obj1.y < obj2.y then .top else .bottom
  { overlapX := oX, overlapY := oY, direction := direction }

/-- The `autoMove` configuration record `{x, y}` (a constant velocity). -/
structure AutoMove where
  x : ℚ
  y : ℚ
deriving DecidableEq, Repr

/-- A game object as built by `createGameObject` and stored in
`this.gameObjects`.  The `element` field (a DOM node) is presentation
state and not part of the engine model; `onCollision` is an opaque
callback modelled by an optional identifier. -/
structure GameObject where
  id : String
  x : ℚ
  y : ℚ
  width : ℚ
  height : ℚ
  velocityX : ℚ
  velocityY : ℚ
  autoMove : Option AutoMove
  isStatic : Bool
  isPlayerControlled : Bool
  requireGround : Bool
  tag : String
  onCollision : Option Nat
deriving DecidableEq, Repr

/-- The rectangle (`x`, `y`, `width`, `height`) of a game object,
the fields read by `isColliding` and `getCollisionData`. -/
def GameObject.rect (o : GameObject) : Rect :=
  { x := o.x, y := o.y, width := o.width, height := o.height }

/-- The recognised fields of the `options` argument of
`createGameObject`; an absent field is `none`. -/
structure GameObjectOptions where
  x : Option ℚ := none
  y : Option ℚ := none
  width : Option ℚ := none
  height : Option ℚ := none
  autoMove : Option AutoMove := none
  isStatic : Option Bool := none
  isPlayerControlled : Option Bool := none
  requireGround : Option Bool := none
  tag : Option String := none
  onCollision : Option Nat := none
deriving DecidableEq, Repr

/-- JavaScript `a || b` on an optional number: `b` when `a` is absent or
falsy (`0`). -/
def jsOrQ (a : Option ℚ) (b : ℚ) : ℚ :=
  match a with
  | none => b
  | some v => if v = 0 then b else v

/-- JavaScript `a || b` on an optional string: `b` when `a` is absent or
falsy (the empty string). -/
def jsOrStr (a : Option String) (b : String) : String :=
  match a with
  | none => b
  | some s => if s = "" then b else s

/-- The game object record built by `createGameObject(elementId, options)`.
`elemWidth`/`elemHeight` stand for `element.offsetWidth`/`offsetHeight`,
the measured size of the backing DOM element; DOM creation, style writes
and the deferred `playerCreated` emission are presentation concerns
outside the model. -/
def createGameObject (elementId : String) (elemWidth elemHeight : ℚ)
    (options : GameObjectOptions) : GameObject :=
  { id := elementId
    x := jsOrQ options.x 0
    y := jsOrQ options.y 0
    width := jsOrQ options.width elemWidth
    height := jsOrQ options.height elemHeight
    velocityX := 0
    velocityY := 0
    autoMove := options.autoMove
    isStatic := options.isStatic.getD false
    isPlayerControlled := options.isPlayerControlled.getD false
    requireGround := options.requireGround.getD false
    tag := jsOrStr options.tag ""
    onCollision := options.onCollision }

/-- `resolveCollision(obj1, obj2, {direction, overlapX, overlapY})`:
early-returns when both objects are static; otherwise pushes each
non-static object along the separation axis by the full overlap, then
zeroes the corresponding velocity component of each non-static object.
Returns the pair of updated objects (the DOM style writes are dropped). -/
def resolveCollision (obj1 obj2 : GameObject) (d : CollisionData) :
    GameObject × GameObject :=
  if obj1.isStatic && obj2.isStatic then (obj1, obj2)
  else
    let p1 : GameObject :=
      match d.direction with
      | .left => if obj1.isStatic then obj1 else { obj1 with x := obj1.x - d.overlapX }
      | .right => if obj1.isStatic then obj1 else { obj1 with x := obj1.x + d.overlapX }
      | .top => if obj1.isStatic then obj1 else { obj1 with y := obj1.y - d.overlapY }
      | .bottom => if obj1.isStatic then obj1 else { obj1 with y := obj1.y + d.overlapY }
    let p2 : GameObject :=
      match d.direction with
      | .left => if obj2.isStatic then obj2 else { obj2 with x := obj2.x + d.overlapX }
      | .right => if obj2.isStatic then obj2 else { obj2 with x := obj2.x - d.overlapX }
      | .top => if obj2.isStatic then obj2 else { obj2 with y := obj2.y + d.overlapY }
      | .bottom => if obj2.isStatic then obj2 else { obj2 with y := obj2.y - d.overlapY }
    let q1 : GameObject :=
      match d.direction with
      | .left | .right => if p1.isStatic then p1 else { p1 with velocityX := 0 }
      | .top | .bottom => if p1.isStatic then p1 else { p1 with velocityY := 0 }
    let q2 : GameObject :=
      match d.direction with
      | .left | .right => if p2.isStatic then p2 else { p2 with velocityX := 0 }
      | .top | .bottom => if p2.isStatic then p2 else { p2 with velocityY := 0 }
    (q1, q2)

/-- The synthetic "feet" probe rectangle of `isOnGround`: one unit tall,
one unit below the object. -/
def feetOf (obj : GameObject) : Rect :=
  { x := obj.x, y := obj.y + obj.height + 1, width := obj.width, height := 1 }

/-- `isOnGround(obj)` for the object at position `i` of the object list:
the feet probe collides with some other object (`other !== obj` is the
reference comparison, modelled by index inequality; the `isPlatform`
exclusion flag is never settable by `createGameObject`, hence always
absent/falsy and `!other.isPlatform` always true). -/
def isOnGround (objs : List GameObject) (i : Nat) (obj : GameObject) : Bool :=
  (List.range objs.length).any fun j =>
    decide (j ≠ i) &&
      (match objs[j]? with
       | some other => isColliding (feetOf obj) other.rect
       | none => false)

/-- Step 1 of the per-object update: `autoMove` overwrites the velocity. -/
def applyAutoMove (obj : GameObject) : GameObject :=
  match obj.autoMove with
  | some m => { obj with velocityX := m.x, velocityY := m.y }
  | none => obj

/-- Step 2 of the per-object update: gravity
`velocityY += 500 * (deltaTime / 500)` when ground is required and absent. -/
def applyGravity (grounded : Bool) (deltaTime : ℚ) (obj : GameObject) : GameObject :=
  if obj.requireGround && !grounded then
    { obj with velocityY := obj.velocityY + 500 * (deltaTime / 500) }
  else obj

/-- Step 3 of the per-object update: position integration
`x += velocityX * (deltaTime / 1000)`, `y += velocityY * (deltaTime / 1000)`. -/
def integrate (deltaTime : ℚ) (obj : GameObject) : GameObject :=
  { obj with
    x := obj.x + obj.velocityX * (deltaTime / 1000)
    y := obj.y + obj.velocityY * (deltaTime / 1000) }

/-- The body of `update`'s `forEach` for one non-static object, with the
ground-sensor result passed in. -/
def updateObject (grounded : Bool) (deltaTime : ℚ) (obj : GameObject) : GameObject :=
  integrate deltaTime (applyGravity grounded deltaTime (applyAutoMove obj))

/-- The `forEach` of `update(deltaTime)` from index `i` on: each non-static
object is updated in place (later objects see earlier objects already
moved, as with JavaScript's in-place mutation) and one
`('hitBoundary', obj)` emission is recorded per non-static object. -/
def updateLoop (deltaTime : ℚ) (objs : List GameObject) (i : Nat) :
    List GameObject × List (String × GameObject) :=
  if h : i < objs.length then
    let obj := objs.get ⟨i, h⟩
    if obj.isStatic then updateLoop deltaTime objs (i + 1)
    else
      let obj' := updateObject (isOnGround objs i obj) deltaTime obj
      let r := updateLoop deltaTime (objs.set i obj') (i + 1)
      (r.1, ("hitBoundary", obj') :: r.2)
  else (objs, [])
termination_by objs.length - i
decreasing_by
  all_goals first
  | omega
  | (simp only [List.length_set]; omega)

/-- `update(deltaTime)`: updated object list plus the sequence of `emit`
calls it performs, in order. -/
def update (deltaTime : ℚ) (objs : List GameObject) :
    List GameObject × List (String × GameObject) :=
  updateLoop deltaTime objs 0

/-- An observable effect of `checkCollisions`: an `onCollision` callback
invocation (callback identifier, the other object passed to it, and the
collision data), or an `emit('collision', {obj1, obj2, ...collisionData})`. -/
inductive CEvent where
  | callback (id : Nat) (other : GameObject) (data : CollisionData)
  | collision (obj1 obj2 : GameObject) (data : CollisionData)
deriving DecidableEq, Repr

/-- The body of `checkCollisions` for one pair: when the rectangles collide,
compute the collision data, resolve, then record the `onCollision`
invocations (obj1's first, then obj2's, each only when set, with the
post-resolution object values the references show at call time) and the
`collision` emission. -/
def processPair (obj1 obj2 : GameObject) : GameObject × GameObject × List CEvent :=
  if isColliding obj1.rect obj2.rect then
    let d := getCollisionData obj1.rect obj2.rect
    let r := resolveCollision obj1 obj2 d
    let evs : List CEvent :=
      (match r.1.onCollision with
       | some f => [CEvent.callback f r.2 d]
       | none => []) ++
      (match r.2.onCollision with
       | some f => [CEvent.callback f r.1 d]
       | none => []) ++
      [CEvent.collision r.1 r.2 d]
    (r.1, r.2, evs)
  else (obj1, obj2, [])

/-- The inner `for` loop of `checkCollisions` for a fixed `i`, from index
`j` on, mutating the object list in place. -/
def innerLoop (i : Nat) (objs : List GameObject) (j : Nat) :
    List GameObject × List CEvent :=
  if hj : j < objs.length then
    if hi : i < objs.length then
      let p := processPair (objs.get ⟨i, hi⟩) (objs.get ⟨j, hj⟩)
      let objs' := (objs.set i p.1).set j p.2.1
      let r := innerLoop i objs' (j + 1)
      (r.1, p.2.2 ++ r.2)
    else (objs, [])
  else (objs, [])
termination_by objs.length - j
decreasing_by
  simp only [List.length_set]
  omega

/-- `innerLoop` preserves the length of the object list. -/
theorem innerLoop_length_aux (i : Nat) :
    ∀ (n : Nat) (objs : List GameObject) (j : Nat), objs.length - j ≤ n →
      ((innerLoop i objs j).1).length = objs.length := by
  intro n
  induction n with
  | zero =>
    intro objs j hle
    rw [innerLoop]
    have : ¬ j < objs.length := by omega
    simp [this]
  | succ n ih =>
    intro objs j hle
    rw [innerLoop]
    by_cases hj : j < objs.length
    · by_cases hi : i < objs.length
      · simp only [hj, hi, dif_pos]
        have := ih ((objs.set i (processPair (objs.get ⟨i, hi⟩) (objs.get ⟨j, hj⟩)).1).set j
          (processPair (objs.get ⟨i, hi⟩) (objs.get ⟨j, hj⟩)).2.1) (j + 1)
          (by simp only [List.length_set]; omega)
        simpa [List.length_set] using this
      · simp [hj, hi]
    · simp [hj]

/-- `innerLoop` preserves the length of the object list. -/
theorem innerLoop_length (i : Nat) (objs : List GameObject) (j : Nat) :
    ((innerLoop i objs j).1).length = objs.length :=
  innerLoop_length_aux i (objs.length - j) objs j (le_refl _)

/-- The outer `for` loop of `checkCollisions`, from index `i` on. -/
def outerLoop (objs : List GameObject) (i : Nat) : List GameObject × List CEvent :=
  if _h : i < objs.length then
    let r := innerLoop i objs (i + 1)
    let r2 := outerLoop r.1 (i + 1)
    (r2.1, r.2 ++ r2.2)
  else (objs, [])
termination_by objs.length - i
decreasing_by
  simp only [innerLoop_length]
  omega

/-- `checkCollisions()`: the final object list plus the recorded callback
invocations and `collision` emissions, in order. -/
def checkCollisions (objs : List GameObject) : List GameObject × List CEvent :=
  outerLoop objs 0

/-- The engine's `eventListeners` mapping: a JavaScript object from event
name to the array of subscribed callbacks (`none` when the key is absent);
callbacks are opaque, of type `α`. -/
def EventBus (α : Type) : Type := String → Option (List α)

/-- The empty `eventListeners` object. -/
def EventBus.empty (α : Type) : EventBus α := fun _ => none

/-- `on(event, callback)`: create the array for `event` when absent, then
push the callback at the end. -/
def EventBus.on {α : Type} (bus : EventBus α) (event : String) (callback : α) : EventBus α :=
  fun e => if e = event then some ((bus event).getD [] ++ [callback]) else bus e

/-- `emit(event, data)`: the ordered list of `(callback, data)` invocations
performed — every subscriber of `event` in subscription order, or nothing
when the key is absent. -/
def EventBus.emit {α β : Type} (bus : EventBus α) (event : String) (data : β) : List (α × β) :=
  match bus event with
  | none => []
  | some listeners => listeners.map fun callback => (callback, data)

/-- The overlap recomputed along the separation axis selected by a
collision direction: `overlapX` for `left`/`right`, `overlapY` for
`top`/`bottom`. -/
def overlapAlong (dir : Direction) (a b : Rect) : ℚ :=
  match dir with
  | .left | .right => overlapX a b
  | .top | .bottom => overlapY a b

/-- The chosen-axis overlap is attained on the two facing sides, i.e. the
rectangles are not nested along that axis: for `left` the penetration of
`a`'s right side into `b` is the minimum, for `right` the penetration of
`b`'s right side into `a`, and analogously along `y` for `top`/`bottom`. -/
def facingOverlap (a b : Rect) : Direction → Prop
  | .left => a.x + a.width - b.x ≤ b.x + b.width - a.x
  | .right => b.x + b.width - a.x ≤ a.x + a.width - b.x
  | .top => a.y + a.height - b.y ≤ b.y + b.height - a.y
  | .bottom => b.y + b.height - a.y ≤ a.y + a.height - b.y

/-- A movable 100×100 object at the origin (used as a concrete input). -/
def wideObj : GameObject :=
  { id := "wide", x := 0, y := 0, width := 100, height := 100,
    velocityX := 0, velocityY := 0, autoMove := none, isStatic := false,
    isPlayerControlled := false, requireGround := false, tag := "",
    onCollision := none }

/-- A movable 5×50 object nested horizontally inside `wideObj`
(used as a concrete input). -/
def nestedObj : GameObject :=
  { id := "nested", x := 10, y := 10, width := 5, height := 50,
    velocityX := 0, velocityY := 0, autoMove := none, isStatic := false,
    isPlayerControlled := false, requireGround := false, tag := "",
    onCollision := none }

/-- A static 10×10 object at the origin with a collision callback
(used as a concrete input). -/
def staticObj1 : GameObject :=
  { id := "s1", x := 0, y := 0, width := 10, height := 10,
    velocityX := 0, velocityY := 0, autoMove := none, isStatic := true,
    isPlayerControlled := false, requireGround := false, tag := "",
    onCollision := some 1 }

/-- A static 10×10 object at `(5, 0)` with a collision callback
(used as a concrete input). -/
def staticObj2 : GameObject :=
  { id := "s2", x := 5, y := 0, width := 10, height := 10,
    velocityX := 0, velocityY := 0, autoMove := none, isStatic := true,
    isPlayerControlled := false, requireGround := false, tag := "",
    onCollision := some 2 }

/-- A movable 10×10 object at `(6, 0)` (used as a concrete input). -/
def movingObj : GameObject :=
  { id := "m", x := 6, y := 0, width := 10, height := 10,
    velocityX := 3, velocityY := 0, autoMove := none, isStatic := false,
    isPlayerControlled := false, requireGround := false, tag := "",
    onCollision := none }

/-- A movable 10×10 falling object at the origin that requires ground
support (used as a concrete input). -/
def fallingObj : GameObject :=
  { id := "f", x := 0, y := 0, width := 10, height := 10,
    velocityX := 0, velocityY := 0, autoMove := none, isStatic := false,
    isPlayerControlled := false, requireGround := true, tag := "",
    onCollision := none }


/-- The per-object update never changes the `isStatic` flag. -/
theorem updateObject_isStatic (g : Bool) (dt : ℚ) (o : GameObject) :
    (updateObject g dt o).isStatic = o.isStatic := by
  unfold updateObject integrate applyGravity applyAutoMove
  cases o.autoMove <;> dsimp <;> split <;> rfl

/-- `resolveCollision` returns a static first object unchanged. -/
theorem resolveCollision_static_fst (obj1 obj2 : GameObject) (d : CollisionData)
    (h : obj1.isStatic = true) : (resolveCollision obj1 obj2 d).1 = obj1 := by
  unfold resolveCollision
  by_cases h2 : obj2.isStatic = true
  · simp [h, h2]
  · cases d.direction <;> simp [h, h2]

/-- `resolveCollision` returns a static second object unchanged. -/
theorem resolveCollision_static_snd (obj1 obj2 : GameObject) (d : CollisionData)
    (h : obj2.isStatic = true) : (resolveCollision obj1 obj2 d).2 = obj2 := by
  unfold resolveCollision
  by_cases h1 : obj1.isStatic = true
  · simp [h, h1]
  · cases d.direction <;> simp [h, h1]

/-- Combined invariant of the `update` loop from index `i` on: the object
list keeps its length, objects below `i` are untouched, static objects are
untouched, and the emission trace is exactly one `hitBoundary` per
non-static processed object, carrying the updated object, in order. -/
theorem updateLoop_spec_aux (dt : ℚ) :
    ∀ (n : Nat) (objs : List GameObject) (i : Nat), objs.length - i ≤ n →
      ((updateLoop dt objs i).1.length = objs.length) ∧
      (∀ (k : Nat), k < i → (updateLoop dt objs i).1[k]? = objs[k]?) ∧
      (∀ (k : Nat) (o : GameObject), objs[k]? = some o → o.isStatic = true →
        (updateLoop dt objs i).1[k]? = some o) ∧
      ((updateLoop dt objs i).2 =
        (((updateLoop dt objs i).1.drop i).filter (fun o => !o.isStatic)).map
          (fun o => (("hitBoundary" : String), o))) := by
  intro n
  induction n with
  | zero =>
    intro objs i hle
    have hni : ¬ i < objs.length := by omega
    have heq : updateLoop dt objs i = (objs, []) := by
      rw [updateLoop]
      exact dif_neg hni
    rw [heq]
    refine ⟨rfl, fun k _ => rfl, fun k o h _ => h, ?_⟩
    dsimp only
    rw [List.drop_eq_nil_of_le (by omega)]
    rfl
  | succ n ih =>
    intro objs i hle
    by_cases hi : i < objs.length
    · by_cases hs : objs[i].isStatic
      · have heq : updateLoop dt objs i = updateLoop dt objs (i + 1) := by
          rw [updateLoop]
          simp [hi, hs]
        obtain ⟨ha, hb, hc, hd⟩ := ih objs (i + 1) (by omega)
        rw [heq]
        refine ⟨ha, fun k hk => hb k (by omega), hc, ?_⟩
        have hil : i < (updateLoop dt objs (i + 1)).1.length := by rw [ha]; exact hi
        have hgi : (updateLoop dt objs (i + 1)).1[i]? = some objs[i] := by
          rw [hb i (by omega), List.getElem?_eq_getElem hi]
        have hgi' : (updateLoop dt objs (i + 1)).1[i] = objs[i] := by
          have h2 := List.getElem?_eq_getElem hil
          rw [h2] at hgi
          exact Option.some_injective _ hgi
        rw [hd, List.drop_eq_getElem_cons hil, hgi']
        simp [hs]
      · have hs' : objs[i].isStatic = false := by simpa using hs
        have heq : updateLoop dt objs i =
            ((updateLoop dt
                (objs.set i (updateObject (isOnGround objs i objs[i]) dt objs[i])) (i + 1)).1,
             ("hitBoundary", updateObject (isOnGround objs i objs[i]) dt objs[i]) ::
               (updateLoop dt
                 (objs.set i (updateObject (isOnGround objs i objs[i]) dt objs[i])) (i + 1)).2) := by
          rw [updateLoop]
          simp [hi, hs']
        set obj' := updateObject (isOnGround objs i objs[i]) dt objs[i] with hobj'
        have hlen : (objs.set i obj').length = objs.length := by
          simp [List.length_set]
        obtain ⟨ha, hb, hc, hd⟩ := ih (objs.set i obj') (i + 1) (by omega)
        rw [heq]
        dsimp only
        refine ⟨by rw [ha, hlen], ?_, ?_, ?_⟩
        · intro k hk
          rw [hb k (by omega), List.getElem?_set_ne (by omega)]
        · intro k o hko hos
          by_cases hki : k = i
          · subst hki
            rw [List.getElem?_eq_getElem hi] at hko
            have ho : o = objs[k] := (Option.some_injective _ hko).symm
            rw [ho] at hos
            exact absurd hos (by simp [hs'])
          · rw [hc k o (by rw [List.getElem?_set_ne (Ne.symm hki)]; exact hko) hos]
        · have hil : i < (updateLoop dt (objs.set i obj') (i + 1)).1.length := by
            rw [ha, hlen]; exact hi
          have hgi : (updateLoop dt (objs.set i obj') (i + 1)).1[i]? = some obj' := by
            rw [hb i (by omega)]
            exact List.getElem?_set_self hi
          have hgi' : (updateLoop dt (objs.set i obj') (i + 1)).1[i] = obj' := by
            have h2 := List.getElem?_eq_getElem hil
            rw [h2] at hgi
            exact Option.some_injective _ hgi
          have hns : obj'.isStatic = false := by
            rw [hobj', updateObject_isStatic]
            exact hs'
          rw [hd, List.drop_eq_getElem_cons hil, hgi']
          simp [hns]
    · have heq : updateLoop dt objs i = (objs, []) := by
        rw [updateLoop]
        exact dif_neg hi
      rw [heq]
      refine ⟨rfl, fun k _ => rfl, fun k o h _ => h, ?_⟩
      dsimp only
      rw [List.drop_eq_nil_of_le (by omega)]
      rfl

/-- `processPair` returns a static first object unchanged. -/
theorem processPair_fst_static (obj1 obj2 : GameObject) (h : obj1.isStatic = true) :
    (processPair obj1 obj2).1 = obj1 := by
  unfold processPair
  split
  · exact resolveCollision_static_fst _ _ _ h
  · rfl

/-- `processPair` returns a static second object unchanged. -/
theorem processPair_snd_static (obj1 obj2 : GameObject) (h : obj2.isStatic = true) :
    (processPair obj1 obj2).2.1 = obj2 := by
  unfold processPair
  split
  · exact resolveCollision_static_snd _ _ _ h
  · rfl

/-- The inner collision loop never changes a static object. -/
theorem innerLoop_static_aux (i : Nat) :
    ∀ (n : Nat) (objs : List GameObject) (j : Nat), objs.length - j ≤ n →
      ∀ (k : Nat) (o : GameObject), objs[k]? = some o → o.isStatic = true →
        (innerLoop i objs j).1[k]? = some o := by
  intro n
  induction n with
  | zero =>
    intro objs j hle k o hk _
    have hnj : ¬ j < objs.length := by omega
    have heq : innerLoop i objs j = (objs, []) := by
      rw [innerLoop]
      exact dif_neg hnj
    rw [heq]
    exact hk
  | succ n ih =>
    intro objs j hle k o hk ho
    by_cases hj : j < objs.length
    · by_cases hi : i < objs.length
      · have heq : (innerLoop i objs j).1 =
            (innerLoop i
              ((objs.set i (processPair objs[i] objs[j]).1).set j
                (processPair objs[i] objs[j]).2.1) (j + 1)).1 := by
          rw [innerLoop]
          simp [hj, hi]
        rw [heq]
        have hlen : ((objs.set i (processPair objs[i] objs[j]).1).set j
            (processPair objs[i] objs[j]).2.1).length = objs.length := by
          simp [List.length_set]
        refine ih _ (j + 1) (by rw [hlen]; omega) k o ?_ ho
        by_cases hkj : k = j
        · subst hkj
          have hoj : objs[k] = o := by
            have h2 := List.getElem?_eq_getElem hj
            rw [h2] at hk
            exact Option.some_injective _ hk
          rw [List.getElem?_set_self (by simp [List.length_set]; exact hj)]
          rw [processPair_snd_static _ _ (by rw [hoj]; exact ho), hoj]
        · rw [List.getElem?_set_ne (Ne.symm hkj)]
          by_cases hki : k = i
          · subst hki
            have hoi : objs[k] = o := by
              have h2 := List.getElem?_eq_getElem hi
              rw [h2] at hk
              exact Option.some_injective _ hk
            rw [List.getElem?_set_self hi]
            rw [processPair_fst_static _ _ (by rw [hoi]; exact ho), hoi]
          · rw [List.getElem?_set_ne (Ne.symm hki)]
            exact hk
      · have heq : innerLoop i objs j = (objs, []) := by
          rw [innerLoop]
          simp [hj, hi]
        rw [heq]
        exact hk
    · have heq : innerLoop i objs j = (objs, []) := by
        rw [innerLoop]
        exact dif_neg hj
      rw [heq]
      exact hk

/-- The outer collision loop never changes a static object. -/
theorem outerLoop_static_aux :
    ∀ (n : Nat) (objs : List GameObject) (i : Nat), objs.length - i ≤ n →
      ∀ (k : Nat) (o : GameObject), objs[k]? = some o → o.isStatic = true →
        (outerLoop objs i).1[k]? = some o := by
  intro n
  induction n with
  | zero =>
    intro objs i hle k o hk _
    have hni : ¬ i < objs.length := by omega
    have heq : outerLoop objs i = (objs, []) := by
      rw [outerLoop]
      exact dif_neg hni
    rw [heq]
    exact hk
  | succ n ih =>
    intro objs i hle k o hk ho
    by_cases hi : i < objs.length
    · have heq : (outerLoop objs i).1 = (outerLoop (innerLoop i objs (i + 1)).1 (i + 1)).1 := by
        rw [outerLoop]
        simp [hi]
      rw [heq]
      have hlen : (innerLoop i objs (i + 1)).1.length = objs.length :=
        innerLoop_length i objs (i + 1)
      refine ih _ (i + 1) (by rw [hlen]; omega) k o ?_ ho
      exact innerLoop_static_aux i (objs.length - (i + 1)) objs (i + 1) (le_refl _) k o hk ho
    · have heq : outerLoop objs i = (objs, []) := by
        rw [outerLoop]
        exact dif_neg hi
      rw [heq]
      exact hk

/-- C9: AABB intersection is symmetric: for all rectangles `A` and `B`,
`isColliding(A, B) = isColliding(B, A)`. -/
theorem isColliding_symm (a b : Rect) : isColliding a b = isColliding b a := by
  unfold isColliding
  simp only [← Bool.decide_and, decide_eq_decide]
  tauto

/-- C3: `isColliding` returns `true` exactly when all four strict
inequalities hold, and two rectangles whose overlap is degenerate along
some axis (`overlapX = 0` or `overlapY = 0`, e.g. rectangles merely
sharing an edge or corner) are not colliding. -/
theorem isColliding_strict_characterisation (a b : Rect) :
    (isColliding a b = true ↔
      (a.x < b.x + b.width ∧ a.x + a.width > b.x ∧
       a.y < b.y + b.height ∧ a.y + a.height > b.y)) ∧
    ((overlapX a b = 0 ∨ overlapY a b = 0) → isColliding a b = false) := by
  have hch : isColliding a b = true ↔
      (a.x < b.x + b.width ∧ a.x + a.width > b.x ∧
       a.y < b.y + b.height ∧ a.y + a.height > b.y) := by
    unfold isColliding
    simp only [Bool.and_eq_true, decide_eq_true_eq]
    tauto
  refine ⟨hch, fun h => ?_⟩
  rw [← Bool.not_eq_true, hch]
  rintro ⟨h1, h2, h3, h4⟩
  rcases h with h | h
  · have hpos : 0 < overlapX a b := by
      unfold overlapX
      exact lt_min (by linarith) (by linarith)
    exact hpos.ne' h
  · have hpos : 0 < overlapY a b := by
      unfold overlapY
      exact lt_min (by linarith) (by linarith)
    exact hpos.ne' h

/-- C3 witness: the edge-sharing rectangles `A = (0,0,10,10)` and
`B = (10,0,10,10)` are not colliding. -/
theorem isColliding_strict_characterisation_witness :
    isColliding ⟨0, 0, 10, 10⟩ ⟨10, 0, 10, 10⟩ = false :=
  (isColliding_strict_characterisation ⟨0, 0, 10, 10⟩ ⟨10, 0, 10, 10⟩).2
    (Or.inl (by norm_num [overlapX]))

/-- C2: `getCollisionData` selects the direction by the strict comparison
`overlapX < overlapY` (horizontal wins only strictly; `left` when
`obj1.x < obj2.x`, else `right`; otherwise `top` when `obj1.y < obj2.y`,
else `bottom`), so a tie `overlapX = overlapY` routes to the vertical
axis. -/
theorem getCollisionData_direction_spec (obj1 obj2 : Rect) :
    ((getCollisionData obj1 obj2).direction =
      if overlapX obj1 obj2 < overlapY obj1 obj2 then
        (if obj1.x < obj2.x then Direction.left else Direction.right)
      else
        (if obj1.y < obj2.y then Direction.top else Direction.bottom)) ∧
    (overlapX obj1 obj2 = overlapY obj1 obj2 →
      (getCollisionData obj1 obj2).direction =
        (if obj1.y < obj2.y then Direction.top else Direction.bottom)) := by
  constructor
  · rfl
  · intro h
    simp [getCollisionData, h]

/-- C2 witness: for `(0,0,10,10)` and `(5,5,10,10)` the overlaps tie
(`overlapX = overlapY = 5`) and the direction is vertical (`top`). -/
theorem getCollisionData_direction_spec_witness :
    (getCollisionData ⟨0, 0, 10, 10⟩ ⟨5, 5, 10, 10⟩).direction = Direction.top := by
  have h := (getCollisionData_direction_spec ⟨0, 0, 10, 10⟩ ⟨5, 5, 10, 10⟩).2
    (by norm_num [overlapX, overlapY])
  rw [h]
  norm_num

/-- C10: every object created by `createGameObject` starts with zero
velocity, whatever the configuration options. -/
theorem createGameObject_zero_velocity (elementId : String)
    (elemWidth elemHeight : ℚ) (options : GameObjectOptions) :
    (createGameObject elementId elemWidth elemHeight options).velocityX = 0 ∧
    (createGameObject elementId elemWidth elemHeight options).velocityY = 0 :=
  ⟨rfl, rfl⟩

/-- C8: `on` appends to the subscriber list and `emit` invokes all
subscribers in subscription order with the payload: emitting after one
more subscription produces the previous invocations followed by the new
callback; emitting on an empty bus is a no-op; and subscribing `f1` then
`f2` to `"collision"` invokes `f1` before `f2`. -/
theorem eventBus_subscription_order {α β : Type} (bus : EventBus α)
    (event : String) (callback f1 f2 : α) (data : β) :
    (EventBus.emit (EventBus.on bus event callback) event data =
      EventBus.emit bus event data ++ [(callback, data)]) ∧
    (EventBus.emit (EventBus.empty α) event data = []) ∧
    (EventBus.emit
      (EventBus.on (EventBus.on (EventBus.empty α) "collision" f1) "collision" f2)
      "collision" data = [(f1, data), (f2, data)]) := by
  refine ⟨?_, rfl, ?_⟩
  · unfold EventBus.emit EventBus.on
    simp only [if_pos rfl]
    cases h : bus event <;> simp [h]
  · unfold EventBus.emit EventBus.on EventBus.empty
    simp

/-- C4: a static object is never changed by `update` (its entry in the
object list, position and velocity included, is exactly preserved) nor by
`resolveCollision` in either argument position. -/
theorem static_untouched_by_update_and_resolve :
    (∀ (deltaTime : ℚ) (objs : List GameObject) (k : Nat) (o : GameObject),
      objs[k]? = some o → o.isStatic = true →
      (update deltaTime objs).1[k]? = some o) ∧
    (∀ (obj1 obj2 : GameObject) (d : CollisionData),
      (obj1.isStatic = true → (resolveCollision obj1 obj2 d).1 = obj1) ∧
      (obj2.isStatic = true → (resolveCollision obj1 obj2 d).2 = obj2)) := by
  constructor
  · intro deltaTime objs k o hk ho
    exact (updateLoop_spec_aux deltaTime objs.length objs 0 (by omega)).2.2.1 k o hk ho
  · intro obj1 obj2 d
    exact ⟨resolveCollision_static_fst obj1 obj2 d,
           resolveCollision_static_snd obj1 obj2 d⟩

/-- C4 witness: the static object `staticObj1` is preserved by an `update`
tick with `deltaTime = 100` and by a `resolveCollision` against a moving
object. -/
theorem static_untouched_witness :
    (update 100 [staticObj1, movingObj]).1[0]? = some staticObj1 ∧
    (resolveCollision staticObj1 movingObj
      (getCollisionData staticObj1.rect movingObj.rect)).1 = staticObj1 := by
  constructor
  · exact static_untouched_by_update_and_resolve.1 100 [staticObj1, movingObj] 0
      staticObj1 rfl rfl
  · exact (static_untouched_by_update_and_resolve.2 staticObj1 movingObj
      (getCollisionData staticObj1.rect movingObj.rect)).1 rfl

/-- C6: one `update(deltaTime)` call emits exactly the list of
`hitBoundary` events whose payloads are the updated non-static objects in
order — one per non-static object regardless of its position, none for
static objects. -/
theorem update_hitBoundary_per_nonstatic (deltaTime : ℚ) (objs : List GameObject) :
    (update deltaTime objs).2 =
      (((update deltaTime objs).1).filter (fun o => !o.isStatic)).map
        (fun o => (("hitBoundary" : String), o)) := by
  have h := (updateLoop_spec_aux deltaTime objs.length objs 0 (by omega)).2.2.2
  simpa [update] using h

/-- C7: for a non-static object that requires ground with no ground
beneath it, an update step with `deltaTime = 500` adds exactly `500`
(that is `500 * (deltaTime / 500)`) to `velocityY` after the `autoMove`
overwrite and before position integration, so the integrated position
uses the increased velocity. -/
theorem gravity_adds_500_at_dt500 (obj : GameObject)
    (_hstatic : obj.isStatic = false) (hrg : obj.requireGround = true) :
    (updateObject false 500 obj).velocityY = (applyAutoMove obj).velocityY + 500 ∧
    (updateObject false 500 obj).y =
      obj.y + ((applyAutoMove obj).velocityY + 500) * (500 / 1000) := by
  have hrg2 : (applyAutoMove obj).requireGround = true := by
    unfold applyAutoMove
    cases obj.autoMove <;> simpa using hrg
  have hy : (applyAutoMove obj).y = obj.y := by
    unfold applyAutoMove
    cases obj.autoMove <;> rfl
  unfold updateObject integrate applyGravity
  rw [hrg2]
  norm_num
  exact hy

/-- C7 witness: `fallingObj` (non-static, `requireGround`, zero initial
velocity, no `autoMove`) gains `velocityY = 500` and falls to `y = 250`
in an ungrounded update step with `deltaTime = 500`. -/
theorem gravity_adds_500_witness :
    (updateObject false 500 fallingObj).velocityY = 500 ∧
    (updateObject false 500 fallingObj).y = 250 := by
  have h := gravity_adds_500_at_dt500 fallingObj rfl rfl
  constructor
  · rw [h.1]
    norm_num [applyAutoMove, fallingObj]
  · rw [h.2]
    norm_num [applyAutoMove, fallingObj]

/-- `resolveCollision` early-returns both objects unchanged when both are
static. -/
theorem resolveCollision_both_static (obj1 obj2 : GameObject) (d : CollisionData)
    (h1 : obj1.isStatic = true) (h2 : obj2.isStatic = true) :
    resolveCollision obj1 obj2 d = (obj1, obj2) := by
  unfold resolveCollision
  simp [h1, h2]

/-- C5: `checkCollisions` never changes a static object (in particular a
colliding static-static pair keeps both positions and velocities), yet
processing a colliding static-static pair still records the `onCollision`
invocations of both objects (when set) and the `collision` emission for
the pair. -/
theorem static_static_pair_events_fire :
    (∀ (objs : List GameObject) (k : Nat) (o : GameObject),
      objs[k]? = some o → o.isStatic = true →
      (checkCollisions objs).1[k]? = some o) ∧
    (∀ (obj1 obj2 : GameObject),
      obj1.isStatic = true → obj2.isStatic = true →
      isColliding obj1.rect obj2.rect = true →
      processPair obj1 obj2 =
        (obj1, obj2,
          (obj1.onCollision.toList.map fun f =>
            CEvent.callback f obj2 (getCollisionData obj1.rect obj2.rect)) ++
          (obj2.onCollision.toList.map fun f =>
            CEvent.callback f obj1 (getCollisionData obj1.rect obj2.rect)) ++
          [CEvent.collision obj1 obj2 (getCollisionData obj1.rect obj2.rect)])) := by
  constructor
  · intro objs k o hk ho
    exact outerLoop_static_aux objs.length objs 0 (by omega) k o hk ho
  · intro obj1 obj2 h1 h2 hcol
    unfold processPair
    rw [if_pos hcol]
    simp only [resolveCollision_both_static obj1 obj2
      (getCollisionData obj1.rect obj2.rect) h1 h2]
    cases obj1.onCollision <;> cases obj2.onCollision <;> simp

/-- C5 witness: the overlapping static pair `staticObj1`, `staticObj2`
(callbacks `1` and `2`) is left unchanged by `checkCollisions`, while
`processPair` records both callback invocations and the collision
emission. -/
theorem static_static_pair_events_witness :
    (checkCollisions [staticObj1, staticObj2]).1[0]? = some staticObj1 ∧
    processPair staticObj1 staticObj2 =
      (staticObj1, staticObj2,
        [CEvent.callback 1 staticObj2 (getCollisionData staticObj1.rect staticObj2.rect),
         CEvent.callback 2 staticObj1 (getCollisionData staticObj1.rect staticObj2.rect),
         CEvent.collision staticObj1 staticObj2
           (getCollisionData staticObj1.rect staticObj2.rect)]) := by
  constructor
  · exact static_static_pair_events_fire.1 [staticObj1, staticObj2] 0 staticObj1 rfl rfl
  · have h := static_static_pair_events_fire.2 staticObj1 staticObj2 rfl rfl
      (by norm_num [isColliding, GameObject.rect, staticObj1, staticObj2])
    rw [h]
    rfl

/-- Two objects cannot both be static when one is non-static. -/
theorem both_static_absurd {b1 b2 : Bool} (hns : b1 = false ∨ b2 = false)
    (h1 : b1 = true) (h2 : b2 = true) : False := by
  rcases hns with h | h
  · rw [h] at h1; exact Bool.false_ne_true h1
  · rw [h] at h2; exact Bool.false_ne_true h2

/-- C1 counterexample: for the intersecting non-static pair `wideObj`
(0,0,100,100) and `nestedObj` (10,10,5,50) — nested along the x axis —
`resolveCollision` with the computed collision data leaves a strictly
positive overlap along the chosen axis (`left`): the claim's recomputed
overlap is `45 > 0`, not `≤ 0`. -/
theorem resolve_residual_overlap_example :
    isColliding wideObj.rect nestedObj.rect = true ∧
    wideObj.isStatic = false ∧ nestedObj.isStatic = false ∧
    0 < overlapAlong (getCollisionData wideObj.rect nestedObj.rect).direction
        ((resolveCollision wideObj nestedObj
            (getCollisionData wideObj.rect nestedObj.rect)).1.rect)
        ((resolveCollision wideObj nestedObj
            (getCollisionData wideObj.rect nestedObj.rect)).2.rect) := by
  have hd : getCollisionData wideObj.rect nestedObj.rect =
      { overlapX := 15, overlapY := 60, direction := Direction.left } := by
    norm_num [getCollisionData, overlapX, overlapY, GameObject.rect, wideObj, nestedObj]
  refine ⟨by norm_num [isColliding, GameObject.rect, wideObj, nestedObj], rfl, rfl, ?_⟩
  rw [hd]
  have hr : resolveCollision wideObj nestedObj
      { overlapX := 15, overlapY := 60, direction := Direction.left } =
      ({ wideObj with x := -15, velocityX := 0 },
       { nestedObj with x := 25, velocityX := 0 }) := by
    norm_num [resolveCollision, wideObj, nestedObj]
  rw [hr]
  norm_num [overlapAlong, overlapX, GameObject.rect, wideObj, nestedObj]

/-- C1 (amended): for an intersecting pair with at least one non-static
object, when the chosen-axis overlap is attained on the facing sides
(the rectangles are not nested along the chosen axis), `resolveCollision`
eliminates the overlap along that axis: recomputing it on the two new
positions yields `≤ 0`. -/
theorem resolveCollision_separates_when_facing (obj1 obj2 : GameObject)
    (hcol : isColliding obj1.rect obj2.rect = true)
    (hns : obj1.isStatic = false ∨ obj2.isStatic = false)
    (hfac : facingOverlap obj1.rect obj2.rect
      (getCollisionData obj1.rect obj2.rect).direction) :
    overlapAlong (getCollisionData obj1.rect obj2.rect).direction
      ((resolveCollision obj1 obj2 (getCollisionData obj1.rect obj2.rect)).1.rect)
      ((resolveCollision obj1 obj2 (getCollisionData obj1.rect obj2.rect)).2.rect) ≤ 0 := by
  unfold isColliding at hcol
  simp only [Bool.and_eq_true, decide_eq_true_eq, GameObject.rect] at hcol
  obtain ⟨⟨⟨h1, h2⟩, h3⟩, h4⟩ := hcol
  by_cases hxy : overlapX obj1.rect obj2.rect < overlapY obj1.rect obj2.rect
  · by_cases hx : obj1.rect.x < obj2.rect.x
    · have hd : getCollisionData obj1.rect obj2.rect =
          ⟨overlapX obj1.rect obj2.rect, overlapY obj1.rect obj2.rect, .left⟩ := by
        unfold getCollisionData
        simp [hxy, hx]
      rw [hd] at hfac ⊢
      simp only [facingOverlap, GameObject.rect] at hfac
      have hmin : min (obj1.x + obj1.width - obj2.x) (obj2.x + obj2.width - obj1.x) =
          obj1.x + obj1.width - obj2.x := min_eq_left hfac
      by_cases hs1 : obj1.isStatic = true
      · by_cases hs2 : obj2.isStatic = true
        · exact (both_static_absurd hns hs1 hs2).elim
        · have hs2' : obj2.isStatic = false := by simpa using hs2
          unfold resolveCollision
          simp [hs1, hs2', overlapAlong, overlapX, overlapY, GameObject.rect, inf_le_iff]
          all_goals first
          | linarith [hmin, h2]
          | (left; linarith [hmin, h2])
          | (right; linarith [hmin, h2])
      · have hs1' : obj1.isStatic = false := by simpa using hs1
        by_cases hs2 : obj2.isStatic = true
        · unfold resolveCollision
          simp [hs1', hs2, overlapAlong, overlapX, overlapY, GameObject.rect, inf_le_iff]
          all_goals first
          | linarith [hmin, h2]
          | (left; linarith [hmin, h2])
          | (right; linarith [hmin, h2])
        · have hs2' : obj2.isStatic = false := by simpa using hs2
          unfold resolveCollision
          simp [hs1', hs2', overlapAlong, overlapX, overlapY, GameObject.rect, inf_le_iff]
          all_goals first
          | linarith [hmin, h2]
          | (left; linarith [hmin, h2])
          | (right; linarith [hmin, h2])
    · have hd : getCollisionData obj1.rect obj2.rect =
          ⟨overlapX obj1.rect obj2.rect, overlapY obj1.rect obj2.rect, .right⟩ := by
        unfold getCollisionData
        simp [hxy, hx]
      rw [hd] at hfac ⊢
      simp only [facingOverlap, GameObject.rect] at hfac
      have hmin : min (obj1.x + obj1.width - obj2.x) (obj2.x + obj2.width - obj1.x) =
          obj2.x + obj2.width - obj1.x := min_eq_right hfac
      by_cases hs1 : obj1.isStatic = true
      · by_cases hs2 : obj2.isStatic = true
        · exact (both_static_absurd hns hs1 hs2).elim
        · have hs2' : obj2.isStatic = false := by simpa using hs2
          unfold resolveCollision
          simp [hs1, hs2', overlapAlong, overlapX, overlapY, GameObject.rect, inf_le_iff]
          all_goals first
          | linarith [hmin, h1]
          | (left; linarith [hmin, h1])
          | (right; linarith [hmin, h1])
      · have hs1' : obj1.isStatic = false := by simpa using hs1
        by_cases hs2 : obj2.isStatic = true
        · unfold resolveCollision
          simp [hs1', hs2, overlapAlong, overlapX, overlapY, GameObject.rect, inf_le_iff]
          all_goals first
          | linarith [hmin, h1]
          | (left; linarith [hmin, h1])
          | (right; linarith [hmin, h1])
        · have hs2' : obj2.isStatic = false := by simpa using hs2
          unfold resolveCollision
          simp [hs1', hs2', overlapAlong, overlapX, overlapY, GameObject.rect, inf_le_iff]
          all_goals first
          | linarith [hmin, h1]
          | (left; linarith [hmin, h1])
          | (right; linarith [hmin, h1])
  · by_cases hy : obj1.rect.y < obj2.rect.y
    · have hd : getCollisionData obj1.rect obj2.rect =
          ⟨overlapX obj1.rect obj2.rect, overlapY obj1.rect obj2.rect, .top⟩ := by
        unfold getCollisionData
        simp [hxy, hy]
      rw [hd] at hfac ⊢
      simp only [facingOverlap, GameObject.rect] at hfac
      have hmin : min (obj1.y + obj1.height - obj2.y) (obj2.y + obj2.height - obj1.y) =
          obj1.y + obj1.height - obj2.y := min_eq_left hfac
      by_cases hs1 : obj1.isStatic = true
      · by_cases hs2 : obj2.isStatic = true
        · exact (both_static_absurd hns hs1 hs2).elim
        · have hs2' : obj2.isStatic = false := by simpa using hs2
          unfold resolveCollision
          simp [hs1, hs2', overlapAlong, overlapX, overlapY, GameObject.rect, inf_le_iff]
          all_goals first
          | linarith [hmin, h4]
          | (left; linarith [hmin, h4])
          | (right; linarith [hmin, h4])
      · have hs1' : obj1.isStatic = false := by simpa using hs1
        by_cases hs2 : obj2.isStatic = true
        · unfold resolveCollision
          simp [hs1', hs2, overlapAlong, overlapX, overlapY, GameObject.rect, inf_le_iff]
          all_goals first
          | linarith [hmin, h4]
          | (left; linarith [hmin, h4])
          | (right; linarith [hmin, h4])
        · have hs2' : obj2.isStatic = false := by simpa using hs2
          unfold resolveCollision
          simp [hs1', hs2', overlapAlong, overlapX, overlapY, GameObject.rect, inf_le_iff]
          all_goals first
          | linarith [hmin, h4]
          | (left; linarith [hmin, h4])
          | (right; linarith [hmin, h4])
    · have hd : getCollisionData obj1.rect obj2.rect =
          ⟨overlapX obj1.rect obj2.rect, overlapY obj1.rect obj2.rect, .bottom⟩ := by
        unfold getCollisionData
        simp [hxy, hy]
      rw [hd] at hfac ⊢
      simp only [facingOverlap, GameObject.rect] at hfac
      have hmin : min (obj1.y + obj1.height - obj2.y) (obj2.y + obj2.height - obj1.y) =
          obj2.y + obj2.height - obj1.y := min_eq_right hfac
      by_cases hs1 : obj1.isStatic = true
      · by_cases hs2 : obj2.isStatic = true
        · exact (both_static_absurd hns hs1 hs2).elim
        · have hs2' : obj2.isStatic = false := by simpa using hs2
          unfold resolveCollision
          simp [hs1, hs2', overlapAlong, overlapX, overlapY, GameObject.rect, inf_le_iff]
          all_goals first
          | linarith [hmin, h3]
          | (left; linarith [hmin, h3])
          | (right; linarith [hmin, h3])
      · have hs1' : obj1.isStatic = false := by simpa using hs1
        by_cases hs2 : obj2.isStatic = true
        · unfold resolveCollision
          simp [hs1', hs2, overlapAlong, overlapX, overlapY, GameObject.rect, inf_le_iff]
          all_goals first
          | linarith [hmin, h3]
          | (left; linarith [hmin, h3])
          | (right; linarith [hmin, h3])
        · have hs2' : obj2.isStatic = false := by simpa using hs2
          unfold resolveCollision
          simp [hs1', hs2', overlapAlong, overlapX, overlapY, GameObject.rect, inf_le_iff]
          all_goals first
          | linarith [hmin, h3]
          | (left; linarith [hmin, h3])
          | (right; linarith [hmin, h3])

/-- C1 witness: for the non-nested intersecting pair `fallingObj`
(0,0,10,10) and `movingObj` (6,0,10,10), the facing condition holds and
`resolveCollision` leaves no residual overlap along the chosen axis. -/
theorem resolveCollision_separates_witness :
    isColliding fallingObj.rect movingObj.rect = true ∧
    fallingObj.isStatic = false ∧
    facingOverlap fallingObj.rect movingObj.rect
      (getCollisionData fallingObj.rect movingObj.rect).direction ∧
    overlapAlong (getCollisionData fallingObj.rect movingObj.rect).direction
      ((resolveCollision fallingObj movingObj
          (getCollisionData fallingObj.rect movingObj.rect)).1.rect)
      ((resolveCollision fallingObj movingObj
          (getCollisionData fallingObj.rect movingObj.rect)).2.rect) ≤ 0 := by
  have hcol : isColliding fallingObj.rect movingObj.rect = true := by
    norm_num [isColliding, GameObject.rect, fallingObj, movingObj]
  have hd : getCollisionData fallingObj.rect movingObj.rect =
      { overlapX := 4, overlapY := 10, direction := Direction.left } := by
    norm_num [getCollisionData, overlapX, overlapY, GameObject.rect, fallingObj, movingObj]
  have hfac : facingOverlap fallingObj.rect movingObj.rect
      (getCollisionData fallingObj.rect movingObj.rect).direction := by
    rw [hd]
    norm_num [facingOverlap, GameObject.rect, fallingObj, movingObj]
  exact ⟨hcol, rfl, hfac,
    resolveCollision_separates_when_facing fallingObj movingObj hcol (Or.inl rfl) hfac⟩

end SGE
